import Mathlib

/-!
Shallow embedding of the BIOS device of the ts-c-compiler x86 emulator
(`src/packages/x86-cpu/src/devices/BIOS/BIOS.ts`) and proofs about its
interrupt services (INT 10h video, INT 13h disk, INT 15h wait, INT 16h
keyboard).  Registers are modelled as natural numbers (the register file
holds 16-bit words, byte views are 8-bit), CPU memory as a function from
byte addresses to byte values, and the JavaScript bit operations with the
corresponding operations on `Nat`.  Parts of the repository that the BIOS
calls into but that are not part of its own source (the VGA device, the
`VideoMode` class, the register store, the scan-code tables) are modelled
from the specification and marked as such in their doc comments.
-/

namespace TsCBios

/-! ## INT 15h AH=86h: wait service (`BIOS.initServices`) -/

/-- Carry flag plus the cooperative pause flag, the only CPU state touched by
the INT 15h AH=86h service. -/
structure WaitState where
  cf : Nat
  paused : Bool
deriving DecidableEq

/-- Embedded from `BIOS.initServices` (INT 15h, AH=86h).  The handler computes
`miliseconds = (((cx << 0xf) | dx) / 1000) * 2` (JavaScript float division,
modelled exactly with rationals), returns immediately when that value is
below 2, and otherwise sets CF, sets the pause flag and schedules a host
timer with that delay.  The returned `Option ℚ` is the scheduled delay in
milliseconds (`none` when no timer is scheduled). -/
def int15_86 (cx dx : Nat) (s : WaitState) : WaitState × Option ℚ :=
  let miliseconds : ℚ := (((cx <<< 0xf) ||| dx : Nat) : ℚ) / 1000 * 2
  if miliseconds < 2 then
    (s, none)
  else
    (⟨1, true⟩, some miliseconds)

/-- Embedded from the `setTimeout` callback of the INT 15h AH=86h handler:
it clears CF and the pause flag. -/
def int15_86_timer (_ : WaitState) : WaitState :=
  ⟨0, false⟩

/-! ## INT 13h: disk services (`BIOS.initDrive`) -/

/-- The `info` record of a `BIOSFloppyDrive`: bytes per sector, sectors per
track, head count (the boot drive is created with `{sector: 512, sectors: 18,
heads: 2}`). -/
structure DriveInfo where
  sector : Nat
  sectors : Nat
  heads : Nat
deriving DecidableEq

/-- The boot floppy geometry installed by `BIOS.init`. -/
def bootDriveInfo : DriveInfo := ⟨512, 18, 2⟩

/-- Modelled from the spec: `X86CPU.getMemAddress(seg, off)` (the CPU core is
not under the sources given for the BIOS).  Per the data model, segment:offset
resolves to the linear address `(segment << 4) + offset`, wrapping modulo
`0x100000`. -/
def getMemAddress (seg off : Nat) : Nat :=
  ((seg <<< 4) + off) % 0x100000

/-- Embedded from the INT 13h AH=2 handler:
`cylinder = ((regs.cx & 0xff00) >> 8) | ((regs.cx & 0xc0) << 2)`. -/
def chsCylinder (cx : Nat) : Nat :=
  ((cx &&& 0xff00) >>> 8) ||| ((cx &&& 0xc0) <<< 2)

/-- Embedded from the INT 13h AH=2 handler: `sector = regs.cl & 0x3f` where
`cl` is the low byte of CX. -/
def chsSector (cx : Nat) : Nat :=
  (cx &&& 0xff) &&& 0x3f

/-- Embedded from the INT 13h AH=2 handler: the source byte offset
`src = ((cylinder * drive.info.heads + regs.dh) * drive.info.sectors + sector - 0x1) * drive.info.sector`.
JavaScript arithmetic can go negative here (sector 0), so the value is an
integer. -/
def chsSrcOffset (drive : DriveInfo) (cx dh : Nat) : Int :=
  (((chsCylinder cx : Int) * drive.heads + dh) * drive.sectors + chsSector cx - 1)
    * drive.sector

/-- Size of the flat CPU memory (`cpu.mem.byteLength`): 1 MiB. -/
def memByteLength : Nat := 0x100000

/-- Embedded from the `drive.buffer.copy(Buffer.from(cpu.mem.buffer), dest, srcStart, srcEnd)`
call: Node's `Buffer.copy` copies the source bytes `[srcStart, srcEnd)` to the
target starting at `dest`, clamping the copied length to what fits in the
target.  Memory is a function from byte addresses to byte values. -/
def bufCopy (mem buf : Nat → Nat) (dest srcStart srcEnd : Nat) : Nat → Nat :=
  let len := min (srcEnd - srcStart) (memByteLength - dest)
  fun a => if dest ≤ a ∧ a < dest + len then buf (srcStart + (a - dest)) else mem a

/-- Embedded from the sector-copy loop of the INT 13h AH=2 handler.  The
first argument of the recursion is the loop index `i`, the second the number
of remaining iterations (`regs.al - i`).  Each iteration first checks that the
destination sector fits in CPU memory (breaking with the error flag before
copying if not), then copies one sector with the source end clamped to the
drive buffer length, then checks that the source sector was inside the drive
buffer (breaking with the error flag after the partial copy if not). -/
def int13CopyLoop (buf : Nat → Nat) (bufLen dest src sectorSize : Nat) :
    Nat → Nat → (Nat → Nat) → (Nat → Nat) × Bool
  | _, 0, mem => (mem, false)
  | i, n + 1, mem =>
    let offset := i * sectorSize
    if dest + offset + sectorSize > memByteLength then
      (mem, true)
    else
      let mem' := bufCopy mem buf (dest + offset) (src + offset)
        (min (src + offset + sectorSize) bufLen)
      if src + offset + sectorSize > bufLen then
        (mem', true)
      else
        int13CopyLoop buf bufLen dest src sectorSize (i + 1) n mem'

/-- Result state of the INT 13h AH=2 handler: CPU memory, carry flag, AH. -/
structure Int13ReadResult where
  mem : Nat → Nat
  cf : Nat
  ah : Nat

/-- Embedded from the INT 13h AH=2 handler body after the CHS decode, for a
drive whose buffer is present (the handler assigns the boot medium to a
missing buffer; a drive with no buffer at all takes the error branch
directly).  `dest` and `src` are the decoded destination linear address and
source byte offset.  After the copy loop the code unconditionally clears CF
and AH and then overwrites both with `CF=1, AH=0xBB` when the error flag was
set. -/
def int13Read (drive : DriveInfo) (buf : Nat → Nat) (bufLen al dest src : Nat)
    (mem : Nat → Nat) : Int13ReadResult :=
  let r := int13CopyLoop buf bufLen dest src drive.sector 0 al mem
  if r.2 then ⟨r.1, 1, 0xbb⟩ else ⟨r.1, 0, 0⟩

/-- The INT 13h AH=2 handler at the register level.  The decoded source offset
can be negative in JavaScript only when the 1-based sector number is 0 (where
`Buffer.copy` would throw); on the non-negative domain `Int.toNat` is the
identity and the embedding is exact. -/
def int13ReadRegs (drive : DriveInfo) (buf : Nat → Nat) (bufLen al cx dh es bx : Nat)
    (mem : Nat → Nat) : Int13ReadResult :=
  int13Read drive buf bufLen al (getMemAddress es bx) (chsSrcOffset drive cx dh).toNat mem

/-- Embedded from the INT 13h AH=0 (reset) handler: if `drives[regs.dl]` is
present it sets AH=0 and CF=0, otherwise AH=6 and CF=1.  The result is the
pair `(ah, cf)`. -/
def int13Reset (drives : Nat → Option DriveInfo) (dl : Nat) : Nat × Nat :=
  match drives dl with
  | some _ => (0x0, 0x0)
  | none => (0x6, 0x1)

/-! ## INT 10h: video services (`BIOS.initScreen`, `BIOS.setVideoMode`) -/

/-- A `VideoMode` value as far as the BIOS observes it: the mode code, the
width and height passed to the constructor, and whether the attached VGA
preset is a text-mode preset (`VGA_TEXT_MODES_PRESET`) or a graphics one. -/
structure VideoModeRec where
  code : Nat
  w : Nat
  h : Nat
  text : Bool
deriving DecidableEq

/-- Embedded from the static `BIOS.VideoMode` preset table: the eight modes
constructed in `BIOS.ts` keyed by their numeric code. -/
def biosVideoModeTable (code : Nat) : Option VideoModeRec :=
  if code = 0x0 then some ⟨0x0, 40, 25, true⟩
  else if code = 0x1 then some ⟨0x1, 40, 25, true⟩
  else if code = 0x2 then some ⟨0x2, 80, 25, true⟩
  else if code = 0x3 then some ⟨0x3, 80, 25, true⟩
  else if code = 0x4 then some ⟨0x4, 320, 200, false⟩
  else if code = 0x11 then some ⟨0x11, 640, 480, false⟩
  else if code = 0x12 then some ⟨0x12, 640, 480, false⟩
  else if code = 0x13 then some ⟨0x13, 320, 200, false⟩
  else none

/-- The 80×50 text mode object constructed by the INT 10h AH=11h handler:
`new VideoMode(0x12, 80, 50, VGA_TEXT_MODES_PRESET['80x50'], 0x1)`. -/
def mode80x50 : VideoModeRec := ⟨0x12, 80, 50, true⟩

/-- The 80×25 colour text mode (`BIOS.VideoMode[0x3]`), the boot-time screen
mode. -/
def mode80x25 : VideoModeRec := ⟨0x3, 80, 25, true⟩

/-- Embedded from `BIOS.setVideoMode` for an argument that is a `VideoMode`
object rather than a number.  `Number.isNaN(code)` is `false` for any
non-number, so the code evaluates `BIOS.VideoMode[<number>code]`: it indexes
the preset table with the object coerced to a property key instead of using
the object itself.  The property key an object coerces to is not determined by
the BIOS source, so the lookup key is a parameter: `some k` covers a key that
textually equals one of the table's numeric keys, `none` any other key.  When
the lookup misses, only a warning is logged and the screen mode is left
unchanged. -/
def setVideoModeObj (_newMode : VideoModeRec) (key : Option Nat)
    (screenMode : Option VideoModeRec) : Option VideoModeRec :=
  match (match key with | some k => biosVideoModeTable k | none => none) with
  | some m => some m
  | none => screenMode

/-- Embedded from the INT 10h AH=11h handler: for AL=0x12 it calls
`setVideoMode` with a freshly constructed 80×50 text `VideoMode` object;
for any other AL it does nothing. -/
def int10_11 (al : Nat) (key : Option Nat)
    (screenMode : Option VideoModeRec) : Option VideoModeRec :=
  if al = 0x12 then setVideoModeObj mode80x50 key screenMode else screenMode

/-! ## INT 10h text output (`writeCharacter`) and cursor services -/

/-- A JavaScript value as it flows through `writeCharacter`'s `attribute` and
`color` parameters (`number | boolean`, possibly `null` or omitted). -/
inductive JSVal where
  | undef
  | null
  | bool (b : Bool)
  | num (n : Nat)
deriving DecidableEq

/-- JavaScript truthiness of the values above. -/
def JSVal.truthy : JSVal → Bool
  | .undef => false
  | .null => false
  | .bool b => b
  | .num n => n != 0

/-- JavaScript `a && b`. -/
def jsAnd (a b : JSVal) : JSVal := if a.truthy then b else a

/-- JavaScript `a || b`. -/
def jsOr (a b : JSVal) : JSVal := if a.truthy then a else b

/-- The numeric value of a `JSVal` used as an attribute byte (only number
values reach that use). -/
def JSVal.toNum : JSVal → Nat
  | .num n => n
  | _ => 0

/-- Embedded from the attribute computation in `writeCharacter`:
`color = (color && (typeof attribute === 'undefined' ? regs.bl : attribute)) || 0b111`.
Note that a `null` attribute is not `undefined`, so it is used as-is (and is
falsy, giving the default 0b111). -/
def resolvedColor (color attr : JSVal) (bl : Nat) : JSVal :=
  jsOr (jsAnd color (if attr = JSVal.undef then JSVal.num bl else attr)) (JSVal.num 0b111)

/-- The VGA text cursor position.  JavaScript arithmetic can drive the
coordinates negative (backspace at column 0), hence integers. -/
structure Vec2D where
  x : Int
  y : Int
deriving DecidableEq

/-- Screen state observed by `writeCharacter`: the VGA text cursor and the
CPU memory holding the text pages. -/
structure ScreenState where
  cursor : Vec2D
  mem : Nat → Nat

/-- Modelled from the spec: `VideoMode.write` (the `VideoMode` class is not
under the sources given for the BIOS).  Per §6, text page `p` begins at
`0xB8000 + p * (rows*cols*2)` and each cell is the byte pair
`(char, attribute)`, so writing character `char` with attribute `attr` at
column `x`, row `y` stores the two bytes of the cell at
`base + (y*cols + x)*2`. -/
def modeWrite (mode : VideoModeRec) (page x y char attr : Nat)
    (mem : Nat → Nat) : Nat → Nat :=
  let base := 0xb8000 + page * (mode.w * mode.h * 2) + (y * mode.w + x) * 2
  fun a =>
    if a = base then char % 256
    else if a = base + 1 then attr % 256
    else mem a

/-- Embedded from `writeCharacter` in `BIOS.initScreen`.  `textMode` is
`vga.textMode`; `scrollUp` stands for `vga.scrollTextUp` and `graphicsWrite`
for the local `writeGraphicsCharacter` (both depend on VGA internals and font
data not under the given sources, so they are parameters).  The cursor used is
the live VGA cursor (the handler's default argument); it is written back only
when `moveCursor` is set. -/
def writeCharacter (mode : VideoModeRec) (page bl : Nat) (textMode : Bool)
    (scrollUp : (Nat → Nat) → Nat → Nat)
    (graphicsWrite : Vec2D → Nat → JSVal → Nat → (Nat → Nat) → Nat → Nat)
    (character : Nat) (attr color : JSVal) (moveCursor : Bool)
    (st : ScreenState) : ScreenState :=
  let cursor := st.cursor
  if character = 0x8 then
    /- Backspace: `cursor.x--`. -/
    let c' : Vec2D := ⟨cursor.x - 1, cursor.y⟩
    { st with cursor := if moveCursor then c' else st.cursor }
  else if character = 0xa ∨ character = 0xd then
    /- New line / carriage return, with scroll when the row runs off the
       page. -/
    let c1 : Vec2D := if character = 0xa then ⟨cursor.x, cursor.y + 1⟩ else ⟨0, cursor.y⟩
    let scrolled := decide (c1.y ≥ (mode.h : Int))
    let mem' := if scrolled then scrollUp st.mem else st.mem
    let c2 : Vec2D := if scrolled then ⟨c1.x, (mode.h : Int) - 1⟩ else c1
    { cursor := if moveCursor then c2 else st.cursor, mem := mem' }
  else
    /- Normal characters. -/
    let colorv := resolvedColor color attr bl
    let mem' :=
      if textMode then
        modeWrite mode page cursor.x.toNat cursor.y.toNat character colorv.toNum st.mem
      else
        graphicsWrite cursor character attr colorv.toNum st.mem
    let cx := cursor.x + 1
    let c2 : Vec2D :=
      if cx ≥ (mode.w : Int) then
        if textMode then ⟨0, cursor.y + 1⟩ else ⟨cx - 1, cursor.y⟩
      else ⟨cx, cursor.y⟩
    { cursor := if moveCursor then c2 else st.cursor, mem := mem' }

/-- Embedded from the INT 10h AH=0Eh handler: in text mode it calls
`writeCharacter(regs.al, null, false, true)`, in graphics mode
`writeCharacter(regs.al, regs.bl, true, true)`. -/
def int10_0E (mode : VideoModeRec) (page bl : Nat) (textMode : Bool)
    (scrollUp : (Nat → Nat) → Nat → Nat)
    (graphicsWrite : Vec2D → Nat → JSVal → Nat → (Nat → Nat) → Nat → Nat)
    (al : Nat) (st : ScreenState) : ScreenState :=
  if textMode then
    writeCharacter mode page bl textMode scrollUp graphicsWrite al
      JSVal.null (JSVal.bool false) true st
  else
    writeCharacter mode page bl textMode scrollUp graphicsWrite al
      (JSVal.num bl) (JSVal.bool true) true st

/-- Embedded from the INT 10h AH=2 handler:
`this.vga.setCursorLocation(new Vec2D(dl, dh))`.  The VGA cursor store itself
is modelled from the spec (the VGA device is not under the given sources; per
§4.6 AH=2 sets the cursor position). -/
def int10_02 (dl dh : Nat) (_cursor : Vec2D) : Vec2D :=
  ⟨(dl : Int), (dh : Int)⟩

/-- Result registers of the INT 10h AH=3 handler. -/
structure CursorRegs where
  dl : Nat
  dh : Nat
  ax : Nat
deriving DecidableEq

/-- Embedded from the INT 10h AH=3 handler:
`Object.assign(this.regs, { dl: cursor.x, dh: cursor.y, ax: 0 })`.  Byte
register stores keep the low octet (modelled from the spec: the register file
is not under the given sources; per the data model DL/DH are 8-bit views of
DX). -/
def int10_03 (cursor : Vec2D) : CursorRegs :=
  ⟨(cursor.x % 256).toNat, (cursor.y % 256).toNat, 0⟩

/-! ## INT 16h: keyboard services (`BIOS.initKeyboard`) -/

/-- The keyboard state of `initKeyboard` plus the CPU state it touches: the
`keymap` closure fields (`key`, `shift`, whether a blocking-read callback is
registered), the cooperative pause flag and the AX / ZF registers.  A
scan-code table (`SCAN_CODES_TABLE` or `AT2_SCAN_CODES_QWERTY.PRESSED`, whose
contents are not under the given sources) maps a keycode to its nonempty
array of codes (index 0 plain, index 1 shifted). -/
structure KbState where
  key : Option Nat
  shift : Bool
  callbackSet : Bool
  paused : Bool
  ax : Nat
  zf : Nat
deriving DecidableEq

/-- Embedded from `isCaseModifyKeycode`: `code > 18 || code < 16` (false
exactly for the shift/ctrl/alt keycodes 16, 17, 18). -/
def isCaseModifyKeycode (code : Nat) : Bool :=
  decide (code > 18) || decide (code < 16)

/-- Embedded from `readKeyState`: sets AX to 0; returns false when the code is
falsy (absent or 0) or has no table entry; otherwise stores
`mapping[min(mapping.length - 1, shift ? 1 : 0)]` in AX and returns true.
The result is `(new AX, return value)`. -/
def readKeyState (table : Nat → Option (List Nat)) (shift : Bool)
    (code : Option Nat) : Nat × Bool :=
  match code with
  | none => (0, false)
  | some c =>
    if c = 0 then (0, false)
    else
      match table c with
      | none => (0, false)
      | some mapping =>
        (mapping.getD (min (mapping.length - 1) (if shift then 1 else 0)) 0, true)

/-- Embedded from `clearKeyBuffer`: resets the keymap fields; the registered
callback is dropped only when `clearCallback` is set. -/
def clearKeyBuffer (clearCallback : Bool) (s : KbState) : KbState :=
  { s with
    key := none
    shift := false
    callbackSet := if clearCallback then false else s.callbackSet }

/-- Embedded from `keyListener` as invoked by the INT 16h AH=0 / AH=0x10
handlers (the delivery callback is `readKeyState` against the service's
table).  With no key pressed it pauses the CPU and registers the keydown
callback; with a non-modifier key already pressed it delivers immediately and
clears the key buffer without touching the pause flag; with a modifier key
pressed it does nothing. -/
def int16Blocking (table : Nat → Option (List Nat)) (s : KbState) : KbState :=
  match s.key with
  | none => { s with paused := true, callbackSet := true }
  | some c =>
    if isCaseModifyKeycode c then
      clearKeyBuffer true { s with ax := (readKeyState table s.shift (some c)).1 }
    else s

/-- Embedded from the `keydown` listener of `initKeyboard`: it records the
pressed key and shift state, then invokes the registered blocking-read
callback (if any), which returns unless the document body has focus, and
otherwise, for a non-modifier key, delivers the code through `readKeyState`,
clears the key buffer and unpauses the CPU. -/
def keydown (table : Nat → Option (List Nat)) (code : Nat) (shift : Bool)
    (focusOnBody : Bool) (s : KbState) : KbState :=
  let s1 := { s with key := some code, shift := shift }
  if s1.callbackSet then
    if ¬focusOnBody then s1
    else if isCaseModifyKeycode code then
      { clearKeyBuffer true { s1 with ax := (readKeyState table shift (some code)).1 } with
        paused := false }
    else s1
  else s1

/-- Embedded from the `keyup` listener: `clearKeyBuffer(false)` keeps the
registered callback. -/
def keyup (s : KbState) : KbState :=
  clearKeyBuffer false s

/-- Embedded from the INT 16h AH=1 handler: reads the key state without
pausing and sets `ZF = (+status) ^ 1`, so ZF is 0 exactly when a mappable key
is available. -/
def int16Status (table : Nat → Option (List Nat)) (s : KbState) : KbState :=
  let r := readKeyState table s.shift s.key
  { s with ax := r.1, zf := (if r.2 then 1 else 0) ^^^ 1 }

/-! ## Spec-side definitions used by the refinement claims -/

/-- Spec reading of the CHS cylinder: CH (the high byte of CX) gives the low
eight cylinder bits and bits 7..6 of CL (the low byte of CX) the high two
cylinder bits. -/
def specCylinder (cx : Nat) : Nat :=
  cx / 256 % 256 + cx % 256 / 64 * 256

/-- Spec reading of the CHS sector number: bits 5..0 of CL. -/
def specSector (cx : Nat) : Nat :=
  cx % 256 % 64

/-- Spec reading of the source byte offset:
`((cylinder * heads + DH) * sectors_per_track + sector - 1) * sector_size`. -/
def specSrcOffset (drive : DriveInfo) (cx dh : Nat) : Int :=
  (((specCylinder cx : Int) * drive.heads + dh) * drive.sectors + specSector cx - 1)
    * drive.sector

/-- Spec reading of real-mode linearisation: `(segment * 16 + offset)` modulo
the 1 MiB address space. -/
def specLinearAddr (seg off : Nat) : Nat :=
  (seg * 16 + off) % 0x100000

/-! ## Bit-arithmetic helper lemmas -/

/-- Masking with a shifted all-ones field extracts that bit field:
`x &&& ((2^a - 1) <<< b)` keeps bits `b..b+a-1` of `x` in place. -/
theorem and_mask_shift (x a b : Nat) :
    x &&& ((2 ^ a - 1) <<< b) = ((x >>> b) % 2 ^ a) <<< b := by
  apply Nat.eq_of_testBit_eq
  intro i
  rw [Nat.testBit_and, Nat.testBit_shiftLeft, Nat.testBit_shiftLeft,
    Nat.testBit_mod_two_pow, Nat.testBit_shiftRight, Nat.testBit_two_pow_sub_one]
  by_cases hbi : b ≤ i
  · have hadd : b + (i - b) = i := by omega
    simp only [hadd, ge_iff_le, hbi, decide_True, Bool.true_and, Bool.and_true]
    exact Bool.and_comm _ _
  · simp [hbi]

/-- Bitwise or of a low part and a disjoint high part is their sum. -/
theorem lor_low_high (A k n : Nat) (hA : A < 2 ^ n) :
    A ||| 2 ^ n * k = 2 ^ n * k + A := by
  apply Nat.eq_of_testBit_eq
  intro j
  rw [Nat.testBit_or, Nat.testBit_mul_pow_two_add k hA j, Nat.testBit_mul_pow_two]
  by_cases hj : j < n
  · simp [hj, Nat.not_le.mpr hj]
  · have hfalse : A.testBit j = false :=
      Nat.testBit_lt_two_pow
        (lt_of_lt_of_le hA (Nat.pow_le_pow_right (by norm_num) (Nat.le_of_not_lt hj)))
    simp [hj, hfalse, Nat.le_of_not_lt hj]

/-- The cylinder decode of the INT 13h AH=2 handler in div/mod form. -/
theorem chsCylinder_eq (cx : Nat) :
    chsCylinder cx = cx / 256 % 256 + cx % 256 / 64 * 256 := by
  unfold chsCylinder
  have h1 : (0xff00 : Nat) = (2 ^ 8 - 1) <<< 8 := by decide
  have h2 : (0xc0 : Nat) = (2 ^ 2 - 1) <<< 6 := by decide
  rw [h1, h2, and_mask_shift, and_mask_shift]
  rw [Nat.shiftLeft_eq, Nat.shiftLeft_eq, Nat.shiftLeft_eq,
    Nat.shiftRight_eq_div_pow, Nat.shiftRight_eq_div_pow, Nat.shiftRight_eq_div_pow]
  have h3 : cx / 2 ^ 8 % 2 ^ 8 * 2 ^ 8 / 2 ^ 8 = cx / 2 ^ 8 % 2 ^ 8 :=
    Nat.mul_div_cancel _ (by norm_num)
  rw [h3]
  have h4 : cx / 2 ^ 6 % 2 ^ 2 * 2 ^ 6 * 2 ^ 2 = 2 ^ 8 * (cx / 2 ^ 6 % 2 ^ 2) := by ring
  rw [h4, lor_low_high _ _ _ (Nat.mod_lt _ (by norm_num))]
  omega

/-- The sector decode of the INT 13h AH=2 handler in div/mod form. -/
theorem chsSector_eq (cx : Nat) : chsSector cx = cx % 256 % 64 := by
  unfold chsSector
  have h1 : (0xff : Nat) = 2 ^ 8 - 1 := by norm_num
  have h2 : (0x3f : Nat) = 2 ^ 6 - 1 := by norm_num
  rw [h1, h2, Nat.and_pow_two_sub_one_eq_mod, Nat.and_pow_two_sub_one_eq_mod]

/-! ## C3: CHS decode of the INT 13h AH=2 handler -/

/-- C3: for every INT 13h AH=2 invocation the CHS source position is decoded
as cylinder = CH plus bits 7..6 of CL as the two high cylinder bits, sector =
bits 5..0 of CL, and the source byte offset is
`((cylinder * heads + DH) * sectors_per_track + sector - 1) * sector_size`,
while the destination is the linear address of ES:BX. -/
theorem int13_chs_decode_correct (drive : DriveInfo) (cx dh es bx : Nat) :
    chsCylinder cx = specCylinder cx ∧
    chsSector cx = specSector cx ∧
    chsSrcOffset drive cx dh = specSrcOffset drive cx dh ∧
    getMemAddress es bx = specLinearAddr es bx := by
  have hcyl : chsCylinder cx = specCylinder cx := chsCylinder_eq cx
  have hsec : chsSector cx = specSector cx := chsSector_eq cx
  refine ⟨hcyl, hsec, ?_, ?_⟩
  · unfold chsSrcOffset specSrcOffset
    rw [hcyl, hsec]
  · unfold getMemAddress specLinearAddr
    rw [Nat.shiftLeft_eq]

/-! ## C1: INT 15h AH=86h wait service -/

/-- The guard of the INT 15h AH=86h handler in integer form. -/
theorem msGuard_iff (v : Nat) : ((v : ℚ) / 1000 * 2 < 2) ↔ v < 1000 := by
  rw [div_mul_eq_mul_div, div_lt_iff₀ (by norm_num : (0:ℚ) < 1000)]
  constructor
  · intro h
    by_contra h'
    push_neg at h'
    have hv : (1000 : ℚ) ≤ (v : ℚ) := by exact_mod_cast h'
    nlinarith
  · intro h
    have hv : (v : ℚ) < 1000 := by exact_mod_cast h
    nlinarith

/-- C1 counterexample: the claim says every INT 15h AH=86h invocation sets
CF=1, sets the pause flag and schedules a timer.  For CX=0, DX=500 (a request
to wait 500 µs) the handler's computed delay `((0 << 15) | 500) / 1000 * 2 = 1`
is below 2 ms, so it returns with CF and the pause flag untouched and no timer
scheduled. -/
theorem int15_86_claim_counterexample :
    int15_86 0 500 ⟨0, false⟩ = (⟨0, false⟩, none) := by
  have h : ((0 <<< 0xf) ||| 500 : Nat) = 500 := by decide
  unfold int15_86
  rw [h, if_pos]
  rw [msGuard_iff]
  norm_num

/-- C1 amended: with `v = (CX << 15) | DX` (the code shifts CX by 15, not 16),
an INT 15h AH=86h invocation leaves CF, the pause flag and the timer queue
untouched when `v < 1000` (computed delay below 2 ms); otherwise it sets CF=1
and paused=true and schedules a host timer of `v / 1000 * 2` milliseconds
(that is, `2 v` microseconds), whose callback clears both CF and the pause
flag. -/
theorem int15_86_wait_behavior (cx dx : Nat) (s : WaitState)
    (_hcx : cx < 65536) (_hdx : dx < 65536) :
    (((cx <<< 0xf) ||| dx) < 1000 → int15_86 cx dx s = (s, none)) ∧
    (1000 ≤ ((cx <<< 0xf) ||| dx) →
      int15_86 cx dx s =
        (⟨1, true⟩, some ((((cx <<< 0xf) ||| dx : Nat) : ℚ) / 1000 * 2)) ∧
      int15_86_timer ⟨1, true⟩ = ⟨0, false⟩) := by
  constructor
  · intro h
    unfold int15_86
    rw [if_pos ((msGuard_iff _).mpr h)]
  · intro h
    refine ⟨?_, rfl⟩
    unfold int15_86
    rw [if_neg]
    rw [msGuard_iff]
    omega

/-- Witness for the amended C1 theorem at CX=1, DX=0: `v = 32768 ≥ 1000`, so
CF and the pause flag are set and a timer of `32768 / 1000 * 2` ms is
scheduled. -/
theorem int15_86_wait_behavior_witness :
    (1 : Nat) < 65536 ∧ (0 : Nat) < 65536 ∧ 1000 ≤ ((1 <<< 0xf) ||| 0) ∧
    int15_86 1 0 ⟨0, false⟩ =
      (⟨1, true⟩, some ((((1 <<< 0xf) ||| 0 : Nat) : ℚ) / 1000 * 2)) :=
  ⟨by norm_num, by norm_num, by decide,
    ((int15_86_wait_behavior 1 0 ⟨0, false⟩ (by norm_num) (by norm_num)).2
      (by decide)).1⟩

/-! ## C2: INT 13h AH=2 success / overflow status -/

/-- The copy loop's error flag is set exactly when some requested sector
(relative index `j` below the remaining count, absolute index `i + j`) runs
past the 1 MiB CPU memory at the destination or past the drive buffer at the
source. -/
theorem int13CopyLoop_err_iff (buf : Nat → Nat) (bufLen dest src secSz : Nat) :
    ∀ (n i : Nat) (mem : Nat → Nat),
      (int13CopyLoop buf bufLen dest src secSz i n mem).2 = true ↔
        ∃ j, j < n ∧ (dest + (i + j) * secSz + secSz > memByteLength ∨
          src + (i + j) * secSz + secSz > bufLen) := by
  intro n
  induction n with
  | zero =>
    intro i mem
    simp [int13CopyLoop]
  | succ n ih =>
    intro i mem
    simp only [int13CopyLoop]
    by_cases h1 : dest + i * secSz + secSz > memByteLength
    · rw [if_pos h1]
      constructor
      · intro _
        refine ⟨0, by omega, Or.inl ?_⟩
        have e0 : (i + 0) * secSz = i * secSz := by ring
        omega
      · intro _
        rfl
    · rw [if_neg h1]
      by_cases h2 : src + i * secSz + secSz > bufLen
      · rw [if_pos h2]
        constructor
        · intro _
          refine ⟨0, by omega, Or.inr ?_⟩
          have e0 : (i + 0) * secSz = i * secSz := by ring
          omega
        · intro _
          rfl
      · rw [if_neg h2]
        rw [ih]
        constructor
        · rintro ⟨j, hj, hp⟩
          refine ⟨j + 1, by omega, ?_⟩
          have e1 : (i + (j + 1)) * secSz = (i + 1 + j) * secSz := by ring
          omega
        · rintro ⟨j, hj, hp⟩
          match j, hp with
          | 0, hp =>
            exfalso
            have e0 : (i + 0) * secSz = i * secSz := by ring
            omega
          | j + 1, hp =>
            refine ⟨j, by omega, ?_⟩
            have e1 : (i + (j + 1)) * secSz = (i + 1 + j) * secSz := by ring
            omega

/-- C2: an INT 13h AH=2 invocation whose requested sectors all fit both in the
1 MiB CPU memory at the destination and in the drive buffer at the source
clears CF and zeroes AH; an invocation in which some requested sector would
run past either bound sets CF=1 and AH=0xBB.  The hypothesis `hnn` restricts
the statement to invocations whose decoded source offset is non-negative
(equivalently, sector number at least 1, as CHS sector numbers are): for a
negative offset `Buffer.copy` throws a RangeError and the handler aborts
without setting CF or AH, and `int13ReadRegs`'s `Int.toNat` is exact only on
this domain. -/
theorem int13_read_status (drive : DriveInfo) (buf : Nat → Nat)
    (bufLen al cx dh es bx : Nat) (mem : Nat → Nat)
    (hnn : 0 ≤ chsSrcOffset drive cx dh) :
    ((∀ i, i < al →
        getMemAddress es bx + i * drive.sector + drive.sector ≤ memByteLength ∧
        chsSrcOffset drive cx dh + i * drive.sector + drive.sector ≤ (bufLen : Int)) →
      (int13ReadRegs drive buf bufLen al cx dh es bx mem).cf = 0 ∧
      (int13ReadRegs drive buf bufLen al cx dh es bx mem).ah = 0) ∧
    ((∃ i, i < al ∧
        (getMemAddress es bx + i * drive.sector + drive.sector > memByteLength ∨
         chsSrcOffset drive cx dh + i * drive.sector + drive.sector > (bufLen : Int))) →
      (int13ReadRegs drive buf bufLen al cx dh es bx mem).cf = 1 ∧
      (int13ReadRegs drive buf bufLen al cx dh es bx mem).ah = 0xbb) := by
  have hiff := int13CopyLoop_err_iff buf bufLen (getMemAddress es bx)
    (chsSrcOffset drive cx dh).toNat drive.sector al 0
  have hS : ((chsSrcOffset drive cx dh).toNat : Int) = chsSrcOffset drive cx dh :=
    Int.toNat_of_nonneg hnn
  simp only [int13ReadRegs, int13Read]
  constructor
  · intro h
    have hne : ¬((int13CopyLoop buf bufLen (getMemAddress es bx)
        (chsSrcOffset drive cx dh).toNat drive.sector 0 al mem).2 = true) := by
      rw [hiff mem]
      rintro ⟨j, hj, hp⟩
      have hb := h j hj
      have e0 : (0 + j) * drive.sector = j * drive.sector := by ring
      omega
    rw [if_neg hne]
    exact ⟨rfl, rfl⟩
  · rintro ⟨i, hi, hp⟩
    have he : (int13CopyLoop buf bufLen (getMemAddress es bx)
        (chsSrcOffset drive cx dh).toNat drive.sector 0 al mem).2 = true := by
      rw [hiff mem]
      refine ⟨i, hi, ?_⟩
      have e0 : (0 + i) * drive.sector = i * drive.sector := by ring
      omega
    rw [if_pos he]
    exact ⟨rfl, rfl⟩

/-- Witness for C2: the boot geometry with CX=1 has source offset 0 (nonneg);
a one-sector read of LBA 0 into 0x7E00 (ES=0) stays in both bounds and
succeeds, while a read of 3 sectors from a 512-byte buffer overflows the
source and reports CF=1, AH=0xBB. -/
theorem int13_read_status_witness :
    (0 : Int) ≤ chsSrcOffset bootDriveInfo 1 0 ∧
    ((int13ReadRegs bootDriveInfo (fun _ => 0) 512 1 1 0 0 0x7E00 (fun _ => 0)).cf = 0 ∧
     (int13ReadRegs bootDriveInfo (fun _ => 0) 512 1 1 0 0 0x7E00 (fun _ => 0)).ah = 0) ∧
    ((int13ReadRegs bootDriveInfo (fun _ => 0) 512 3 1 0 0 0x7E00 (fun _ => 0)).cf = 1 ∧
     (int13ReadRegs bootDriveInfo (fun _ => 0) 512 3 1 0 0 0x7E00 (fun _ => 0)).ah = 0xbb) := by
  have h1 : ∀ i, i < 1 →
      getMemAddress 0 0x7E00 + i * bootDriveInfo.sector + bootDriveInfo.sector
        ≤ memByteLength ∧
      chsSrcOffset bootDriveInfo 1 0 + i * bootDriveInfo.sector +
        bootDriveInfo.sector ≤ ((512 : Nat) : Int) := by decide
  have h2 : ∃ i, i < 3 ∧
      (getMemAddress 0 0x7E00 + i * bootDriveInfo.sector + bootDriveInfo.sector
          > memByteLength ∨
       chsSrcOffset bootDriveInfo 1 0 + i * bootDriveInfo.sector +
         bootDriveInfo.sector > ((512 : Nat) : Int)) := ⟨1, by omega, Or.inr (by decide)⟩
  exact ⟨by decide,
    (int13_read_status bootDriveInfo (fun _ => 0) 512 1 1 0 0 0x7E00
      (fun _ => 0) (by decide)).1 h1,
    (int13_read_status bootDriveInfo (fun _ => 0) 512 3 1 0 0 0x7E00
      (fun _ => 0) (by decide)).2 h2⟩

/-! ## C4: concrete one-sector boot read -/

set_option maxRecDepth 4000 in
/-- C4: with drive 0 attached as the 512-byte-sector boot medium, INT 13h with
AH=2, AL=1, CH=0, CL=1 (so CX=1), DH=0, DL=0 and ES:BX = ES:0x7E00 copies the
512 bytes of drive LBA 0 to the linear address of ES:0x7E00, leaving memory
elsewhere unchanged, and returns CF=0 and AH=0. -/
theorem int13_boot_sector_read (es : Nat) (buf mem : Nat → Nat)
    (hdest : getMemAddress es 0x7E00 + 512 ≤ memByteLength) :
    (int13ReadRegs bootDriveInfo buf 512 1 1 0 es 0x7E00 mem).cf = 0 ∧
    (int13ReadRegs bootDriveInfo buf 512 1 1 0 es 0x7E00 mem).ah = 0 ∧
    (int13ReadRegs bootDriveInfo buf 512 1 1 0 es 0x7E00 mem).mem =
      fun a =>
        if getMemAddress es 0x7E00 ≤ a ∧ a < getMemAddress es 0x7E00 + 512 then
          buf (a - getMemAddress es 0x7E00)
        else mem a := by
  have hsrc : (chsSrcOffset bootDriveInfo 1 0).toNat = 0 := by decide
  have hsec : bootDriveInfo.sector = 512 := rfl
  have e1 : int13CopyLoop buf 512 (getMemAddress es 0x7E00) 0 512 0 1 mem =
      (bufCopy mem buf (getMemAddress es 0x7E00) 0 512, false) := by
    simp only [int13CopyLoop]
    rw [if_neg (by omega : ¬ (getMemAddress es 0x7E00 + 0 * 512 + 512 > memByteLength))]
    rw [if_neg (by norm_num : ¬ ((0:Nat) + 0 * 512 + 512 > 512))]
    norm_num
  have e2 : bufCopy mem buf (getMemAddress es 0x7E00) 0 512 =
      fun a =>
        if getMemAddress es 0x7E00 ≤ a ∧ a < getMemAddress es 0x7E00 + 512 then
          buf (a - getMemAddress es 0x7E00)
        else mem a := by
    funext a
    simp only [bufCopy]
    have hmin : min (512 - 0) (memByteLength - getMemAddress es 0x7E00) = 512 := by
      omega
    rw [hmin]
    norm_num
  simp only [int13ReadRegs, int13Read, hsec, hsrc]
  rw [e1, e2]
  refine ⟨?_, ?_, ?_⟩
  · simp
  · simp
  · simp

/-- Witness for C4 at ES=0: destination 0x7E00 is in bounds, the read
succeeds, the copied window holds the drive bytes and memory outside it is
untouched. -/
theorem int13_boot_sector_read_witness :
    getMemAddress 0 0x7E00 + 512 ≤ memByteLength ∧
    (int13ReadRegs bootDriveInfo (fun a => a % 251) 512 1 1 0 0 0x7E00
      (fun _ => 99)).cf = 0 ∧
    (int13ReadRegs bootDriveInfo (fun a => a % 251) 512 1 1 0 0 0x7E00
      (fun _ => 99)).mem 0x7E05 = 5 % 251 ∧
    (int13ReadRegs bootDriveInfo (fun a => a % 251) 512 1 1 0 0 0x7E00
      (fun _ => 99)).mem 0x8000 = 99 := by
  have h := int13_boot_sector_read 0 (fun a => a % 251) (fun _ => 99) (by decide)
  refine ⟨by decide, h.1, ?_, ?_⟩
  · rw [h.2.2]
    norm_num [getMemAddress]
  · rw [h.2.2]
    norm_num [getMemAddress]

/-! ## C10: INT 13h AH=0 reset status -/

/-- C10: an INT 13h AH=0 invocation sets AH=0 and CF=0 when DL names an
attached drive, and AH=6 and CF=1 when it does not. -/
theorem int13_reset_status (drives : Nat → Option DriveInfo) (dl : Nat) :
    ((drives dl).isSome = true → int13Reset drives dl = (0x0, 0x0)) ∧
    (drives dl = none → int13Reset drives dl = (0x6, 0x1)) := by
  unfold int13Reset
  cases h : drives dl <;> simp [h]

/-- Witness for C10: with only drive 0 attached, DL=0 resets successfully and
DL=1 reports AH=6, CF=1. -/
theorem int13_reset_status_witness :
    (((fun d => if d = 0 then some bootDriveInfo else none) 0 :
        Option DriveInfo).isSome = true ∧
      int13Reset (fun d => if d = 0 then some bootDriveInfo else none) 0 = (0x0, 0x0)) ∧
    (((fun d => if d = 0 then some bootDriveInfo else none) 1 :
        Option DriveInfo) = none ∧
      int13Reset (fun d => if d = 0 then some bootDriveInfo else none) 1 = (0x6, 0x1)) :=
  ⟨⟨by decide,
    (int13_reset_status (fun d => if d = 0 then some bootDriveInfo else none) 0).1
      (by decide)⟩,
   ⟨by decide,
    (int13_reset_status (fun d => if d = 0 then some bootDriveInfo else none) 1).2
      (by decide)⟩⟩

/-! ## C7: INT 10h AH=2 / AH=3 cursor round trip -/

/-- C7: setting the cursor to column DL, row DH with INT 10h AH=2 and then
reading it back with AH=3 returns the same DL and DH, with AX zeroed by the
AH=3 call. -/
theorem int10_cursor_roundtrip (dl dh : Nat) (c : Vec2D)
    (hdl : dl < 256) (hdh : dh < 256) :
    int10_03 (int10_02 dl dh c) = ⟨dl, dh, 0⟩ := by
  unfold int10_02 int10_03
  have h1 : (((dl : Int)) % 256).toNat = dl := by omega
  have h2 : (((dh : Int)) % 256).toNat = dh := by omega
  rw [h1, h2]

/-- Witness for C7 at DL=7, DH=12 from an arbitrary previous cursor. -/
theorem int10_cursor_roundtrip_witness :
    (7 : Nat) < 256 ∧ (12 : Nat) < 256 ∧
    int10_03 (int10_02 7 12 ⟨3, 4⟩) = ⟨7, 12, 0⟩ :=
  ⟨by norm_num, by norm_num, int10_cursor_roundtrip 7 12 ⟨3, 4⟩ (by norm_num) (by norm_num)⟩

/-! ## C5: INT 10h AH=11h AL=0x12 never installs the 80×50 text mode -/

/-- No entry of the `BIOS.VideoMode` preset table is an 80-column, 50-row
mode. -/
theorem biosVideoModeTable_no_80x50 (k : Nat) (m : VideoModeRec)
    (h : biosVideoModeTable k = some m) : ¬(m.w = 80 ∧ m.h = 50) := by
  unfold biosVideoModeTable at h
  split_ifs at h <;> · injection h with h'; subst h'; decide

/-- C5 (bug): the INT 10h AH=11h AL=0x12 handler builds the 80×50 text mode
object, but `setVideoMode` tests it with `Number.isNaN` (false for any
object) and therefore indexes the preset table with the object used as a
property key instead of installing it.  Whatever key the object coerces to,
the resulting screen mode is never an 80-column, 50-row mode: the lookup
either misses (mode unchanged) or returns one of the eight presets, none of
which is 80×50. -/
theorem int10_11_never_80x50 (key : Option Nat) (prev : Option VideoModeRec)
    (hprev : ∀ m, prev = some m → ¬(m.w = 80 ∧ m.h = 50)) :
    ∀ m', int10_11 0x12 key prev = some m' → ¬(m'.w = 80 ∧ m'.h = 50) := by
  intro m' hm'
  unfold int10_11 setVideoModeObj at hm'
  rw [if_pos rfl] at hm'
  cases key with
  | none =>
    exact hprev m' hm'
  | some k =>
    cases htab : biosVideoModeTable k with
    | none =>
      simp only [htab] at hm'
      exact hprev m' hm'
    | some m =>
      simp only [htab] at hm'
      injection hm' with h'
      subst h'
      exact biosVideoModeTable_no_80x50 k m htab

/-- Witness for C5: from the boot 80×25 text mode, with the object coercing
to the table key 0x12, the handler installs the 640×480 graphics preset -
not the 80×50 text mode it constructed. -/
theorem int10_11_never_80x50_witness :
    int10_11 0x12 (some 0x12) (some mode80x25) = some ⟨0x12, 640, 480, false⟩ ∧
    ¬((⟨0x12, 640, 480, false⟩ : VideoModeRec).w = 80 ∧
      (⟨0x12, 640, 480, false⟩ : VideoModeRec).h = 50) :=
  ⟨by decide,
   int10_11_never_80x50 (some 0x12) (some mode80x25)
     (fun m hm => by injection hm with h'; subst h'; decide)
     ⟨0x12, 640, 480, false⟩ (by decide)⟩

/-! ## C6: INT 10h AH=0Eh teletype output in 80×25 text mode -/

/-- The INT 10h AH=0Eh handler on a printable character reduces to one
`modeWrite` plus a one-column cursor advance (no wrap while the cursor is
left of the last column). -/
theorem int10_0E_step (bl : Nat)
    (scrollUp : (Nat → Nat) → Nat → Nat)
    (gw : Vec2D → Nat → JSVal → Nat → (Nat → Nat) → Nat → Nat)
    (x y : Int) (mem : Nat → Nat) (hx : x + 1 < 80) :
    int10_0E mode80x25 0 bl true scrollUp gw 0x58 ⟨⟨x, y⟩, mem⟩ =
      ⟨⟨x + 1, y⟩, modeWrite mode80x25 0 x.toNat y.toNat 0x58 7 mem⟩ := by
  unfold int10_0E writeCharacter
  rw [if_pos rfl]
  rw [if_neg (by norm_num : ¬ ((0x58 : Nat) = 0x8))]
  rw [if_neg (by norm_num : ¬ ((0x58 : Nat) = 0xa ∨ (0x58 : Nat) = 0xd))]
  have hc : resolvedColor (JSVal.bool false) JSVal.null bl = JSVal.num 7 := rfl
  rw [hc]
  have hw : ¬ ((x + 1 : Int) ≥ ((mode80x25.w : Nat) : Int)) := by
    have h80 : (mode80x25.w : Nat) = 80 := rfl
    rw [h80]
    exact_mod_cast (by omega : ¬ (x + 1 ≥ (80 : Int)))
  simp [hw, JSVal.toNum]

/-- C6: in 80×25 text mode, INT 10h AH=0Eh with AL='X' (0x58) writes the
character with the default attribute 0b111 into the two bytes of the cell at
the current cursor position on text page 0, leaves every other byte
unchanged, and advances the cursor by one column (cursor left of the last
column, so no wrap). -/
theorem int10_0E_writes_at_cursor (bl : Nat)
    (scrollUp : (Nat → Nat) → Nat → Nat)
    (gw : Vec2D → Nat → JSVal → Nat → (Nat → Nat) → Nat → Nat)
    (x y : Int) (mem : Nat → Nat) (hx : x + 1 < 80) :
    (int10_0E mode80x25 0 bl true scrollUp gw 0x58 ⟨⟨x, y⟩, mem⟩).cursor = ⟨x + 1, y⟩ ∧
    (int10_0E mode80x25 0 bl true scrollUp gw 0x58 ⟨⟨x, y⟩, mem⟩).mem
      (0xb8000 + (y.toNat * 80 + x.toNat) * 2) = 0x58 ∧
    (int10_0E mode80x25 0 bl true scrollUp gw 0x58 ⟨⟨x, y⟩, mem⟩).mem
      (0xb8000 + (y.toNat * 80 + x.toNat) * 2 + 1) = 0b111 ∧
    ∀ a, a ≠ 0xb8000 + (y.toNat * 80 + x.toNat) * 2 →
      a ≠ 0xb8000 + (y.toNat * 80 + x.toNat) * 2 + 1 →
      (int10_0E mode80x25 0 bl true scrollUp gw 0x58 ⟨⟨x, y⟩, mem⟩).mem a = mem a := by
  rw [int10_0E_step bl scrollUp gw x y mem hx]
  refine ⟨rfl, ?_, ?_, ?_⟩
  · simp only [modeWrite, mode80x25]
    norm_num
  · simp only [modeWrite, mode80x25]
    norm_num
  · intro a h1 h2
    simp only [modeWrite, mode80x25]
    split_ifs with hA
    · exfalso; omega
    · rfl

/-- Witness for C6 at cursor (2,3) with zeroed memory: the cell bytes at the
cursor become 'X' and 0b111, an unrelated byte stays 0 and the cursor moves
to column 3. -/
theorem int10_0E_writes_at_cursor_witness :
    ((2 : Int) + 1 < 80) ∧
    (int10_0E mode80x25 0 0 true (fun m => m) (fun _ _ _ _ m => m) 0x58
      ⟨⟨2, 3⟩, fun _ => 0⟩).cursor = ⟨2 + 1, 3⟩ ∧
    (int10_0E mode80x25 0 0 true (fun m => m) (fun _ _ _ _ m => m) 0x58
      ⟨⟨2, 3⟩, fun _ => 0⟩).mem
      (0xb8000 + ((3 : Int).toNat * 80 + (2 : Int).toNat) * 2) = 0x58 ∧
    (int10_0E mode80x25 0 0 true (fun m => m) (fun _ _ _ _ m => m) 0x58
      ⟨⟨2, 3⟩, fun _ => 0⟩).mem
      (0xb8000 + ((3 : Int).toNat * 80 + (2 : Int).toNat) * 2 + 1) = 0b111 ∧
    (int10_0E mode80x25 0 0 true (fun m => m) (fun _ _ _ _ m => m) 0x58
      ⟨⟨2, 3⟩, fun _ => 0⟩).mem 0 = 0 := by
  have h := int10_0E_writes_at_cursor 0 (fun m => m) (fun _ _ _ _ m => m) 2 3
    (fun _ => 0) (by norm_num)
  exact ⟨by norm_num, h.1, h.2.1, h.2.2.1, h.2.2.2 0 (by decide) (by decide)⟩

/-! ## C8: INT 16h blocking read -/

/-- C8 counterexample: the claim says that after INT 16h AH=0 pauses, the next
keypress delivers the code and clears the pause flag.  With the scan-code
table mapping keycode 65, a keydown of keycode 65 while the document body is
not the focused element leaves the CPU paused and AX untouched: the
registered callback returns early on the focus check. -/
theorem int16_blocking_claim_counterexample :
    (int16Blocking (fun c => if c = 65 then some [0x1e61] else none)
      ⟨none, false, false, false, 0, 0⟩).paused = true ∧
    (keydown (fun c => if c = 65 then some [0x1e61] else none) 65 false false
      (int16Blocking (fun c => if c = 65 then some [0x1e61] else none)
        ⟨none, false, false, false, 0, 0⟩)).paused = true ∧
    (keydown (fun c => if c = 65 then some [0x1e61] else none) 65 false false
      (int16Blocking (fun c => if c = 65 then some [0x1e61] else none)
        ⟨none, false, false, false, 0, 0⟩)).ax = 0 := by
  refine ⟨rfl, rfl, rfl⟩

/-- C8 amended: INT 16h AH=0 (and AH=0x10, which differs only in the table)
with no key pressed sets the pause flag and registers the callback, leaving
AX; the pause ends exactly at a keydown of a non-modifier keycode (outside
16..18) while the document body has focus, which sets AX from the scan-code
table (0 when the key is unmapped) and clears the pause flag; a keydown with
focus elsewhere or of a modifier key leaves the CPU paused.  When a
non-modifier key is already pressed at invocation time, AX is set the same
way immediately and the pause flag is not touched. -/
theorem int16_blocking_behavior (table : Nat → Option (List Nat)) (s : KbState)
    (htbl0 : table 0 = none) :
    (s.key = none →
      (int16Blocking table s).paused = true ∧
      (int16Blocking table s).callbackSet = true ∧
      (int16Blocking table s).ax = s.ax) ∧
    (∀ c sh, s.key = none → isCaseModifyKeycode c = true →
      (keydown table c sh true (int16Blocking table s)).paused = false ∧
      (keydown table c sh true (int16Blocking table s)).key = none ∧
      (table c = none → (keydown table c sh true (int16Blocking table s)).ax = 0) ∧
      (∀ m, table c = some m →
        (keydown table c sh true (int16Blocking table s)).ax =
          m.getD (min (m.length - 1) (if sh then 1 else 0)) 0)) ∧
    (∀ c sh f, s.key = none → (f = false ∨ isCaseModifyKeycode c = false) →
      (keydown table c sh f (int16Blocking table s)).paused = true) ∧
    (∀ c, s.key = some c → isCaseModifyKeycode c = true →
      (int16Blocking table s).paused = s.paused ∧
      (int16Blocking table s).ax = (readKeyState table s.shift (some c)).1) := by
  refine ⟨?_, ?_, ?_, ?_⟩
  · intro hk
    simp [int16Blocking, hk]
  · intro c sh hk hmod
    simp only [int16Blocking, hk]
    simp only [keydown, clearKeyBuffer, hmod]
    norm_num
    constructor
    · intro htab
      by_cases hc : c = 0 <;> simp [readKeyState, htab, hc]
    · intro m htab
      have hc : c ≠ 0 := by
        intro h0
        rw [h0, htbl0] at htab
        exact Option.noConfusion htab
      simp [readKeyState, htab, hc]
  · intro c sh f hk hor
    simp only [int16Blocking, hk]
    cases hor with
    | inl hf =>
      subst hf
      simp [keydown]
    | inr hm =>
      cases f with
      | false => simp [keydown]
      | true => simp [keydown, hm]
  · intro c hk hmod
    simp [int16Blocking, hk, hmod, clearKeyBuffer]

/-- Witness for the amended C8 theorem: table mapping only keycode 65 to
0x1e61; invoking with no key pressed pauses, and a focused keydown of 65
unpauses and delivers 0x1e61 in AX. -/
theorem int16_blocking_behavior_witness :
    ((fun c => if c = 65 then some [0x1e61] else none) 0 = (none : Option (List Nat))) ∧
    (int16Blocking (fun c => if c = 65 then some [0x1e61] else none)
      ⟨none, false, false, false, 0, 0⟩).paused = true ∧
    (keydown (fun c => if c = 65 then some [0x1e61] else none) 65 false true
      (int16Blocking (fun c => if c = 65 then some [0x1e61] else none)
        ⟨none, false, false, false, 0, 0⟩)).paused = false ∧
    (keydown (fun c => if c = 65 then some [0x1e61] else none) 65 false true
      (int16Blocking (fun c => if c = 65 then some [0x1e61] else none)
        ⟨none, false, false, false, 0, 0⟩)).ax = 0x1e61 := by
  have h := int16_blocking_behavior (fun c => if c = 65 then some [0x1e61] else none)
    ⟨none, false, false, false, 0, 0⟩ (by decide)
  have h2 := h.2.1 65 false rfl (by decide)
  have hax := h2.2.2.2 [0x1e61] (by decide)
  refine ⟨by decide, (h.1 rfl).1, h2.1, ?_⟩
  rw [hax]
  decide

/-! ## C9: INT 16h AH=1 non-blocking status -/

/-- C9: INT 16h AH=1 does not pause and does not consume the key; it reports
ZF=0 with the mapped code in AX when the pressed key has a scan-code table
entry, and ZF=1 with AX=0 when no key is pressed or the key is unmapped. -/
theorem int16_status_behavior (table : Nat → Option (List Nat)) (s : KbState)
    (htbl0 : table 0 = none) :
    (int16Status table s).paused = s.paused ∧
    (int16Status table s).key = s.key ∧
    (s.key = none → (int16Status table s).zf = 1 ∧ (int16Status table s).ax = 0) ∧
    (∀ c, s.key = some c → table c = none →
      (int16Status table s).zf = 1 ∧ (int16Status table s).ax = 0) ∧
    (∀ c m, s.key = some c → table c = some m →
      (int16Status table s).zf = 0 ∧
      (int16Status table s).ax =
        m.getD (min (m.length - 1) (if s.shift then 1 else 0)) 0) := by
  refine ⟨rfl, rfl, ?_, ?_, ?_⟩
  · intro hk
    simp [int16Status, readKeyState, hk]
  · intro c hk htab
    by_cases hc : c = 0
    · subst hc
      simp [int16Status, readKeyState, hk]
    · simp [int16Status, readKeyState, hk, htab, hc]
  · intro c m hk htab
    have hc : c ≠ 0 := by
      intro h0
      rw [h0, htbl0] at htab
      exact Option.noConfusion htab
    simp [int16Status, readKeyState, hk, htab, hc]

/-- Witness for C9: with the table mapping only keycode 65 to 0x1e61, AH=1
reports ZF=0 and AX=0x1e61 when key 65 is pressed, and ZF=1, AX=0 when no key
is pressed. -/
theorem int16_status_behavior_witness :
    ((fun c => if c = 65 then some [0x1e61] else none) 0 = (none : Option (List Nat))) ∧
    (int16Status (fun c => if c = 65 then some [0x1e61] else none)
      ⟨some 65, false, false, false, 0, 0⟩).zf = 0 ∧
    (int16Status (fun c => if c = 65 then some [0x1e61] else none)
      ⟨some 65, false, false, false, 0, 0⟩).ax = 0x1e61 ∧
    (int16Status (fun c => if c = 65 then some [0x1e61] else none)
      ⟨none, false, false, false, 0, 0⟩).zf = 1 ∧
    (int16Status (fun c => if c = 65 then some [0x1e61] else none)
      ⟨none, false, false, false, 0, 0⟩).paused = false := by
  have h := int16_status_behavior (fun c => if c = 65 then some [0x1e61] else none)
    ⟨some 65, false, false, false, 0, 0⟩ (by decide)
  have h5 := h.2.2.2.2 65 [0x1e61] rfl (by decide)
  have h' := int16_status_behavior (fun c => if c = 65 then some [0x1e61] else none)
    ⟨none, false, false, false, 0, 0⟩ (by decide)
  refine ⟨by decide, h5.1, ?_, (h'.2.2.1 rfl).1, h'.1⟩
  rw [h5.2]
  decide

end TsCBios
